import Mathlib

/-
  Shallow embedding of the OPAL scopes API
  (src/packages/opal-server/opal_server/scopes/api.py) and of the spec-level
  contracts of its collaborators that are not part of this repository snapshot
  (ScopeStore, pullers, BundleMaker, signature validation).

  HTTP handlers become pure Lean functions from their inputs (headers, path and
  query parameters, parsed body, registry contents, puller behaviour) to an
  Except value mirroring Python exception propagation, together with the list
  of externally visible effects (pulls and publishes) they perform.
-/

namespace Opal

/-- Data-source configuration; opaque to this API layer (spec section 3). -/
abbrev DataSourceConfig := String

/-- The policy selection config of a scope: source URL, source type string
(keyed to puller variants), polling flag, directories, extensions, manifest
filename (spec sections 3 and 4.1). -/
structure ScopePolicy where
  url : String
  source_type : String
  polling : Bool
  directories : List String
  extensions : List String
  manifest : String
deriving DecidableEq, Repr

/-- A scope: identity plus policy selection plus data config (spec section 3). -/
structure Scope where
  scope_id : String
  policy : ScopePolicy
  data : DataSourceConfig
deriving DecidableEq, Repr

/-- Python exceptions that flow through the scopes API. -/
inductive PyErr where
  | scopeNotFound : PyErr
  | invalidScopeSourceType : String → PyErr
  | httpException : Nat → Option String → PyErr
  | attributeError : String → PyErr
  | fetchFailure : String → PyErr
  | diffBaseUnresolvable : PyErr
deriving DecidableEq, Repr

deriving instance DecidableEq for Except

/-- FastAPI maps an uncaught HTTPException to its status code, a normal return
to 200, and any other uncaught exception to a 500 server error. -/
def httpStatus {α : Type} : Except PyErr α → Nat
  | .ok _ => 200
  | .error (.httpException s _) => s
  | .error _ => 500

/-- The detail field of the resulting HTTP error response, when any. -/
def httpDetail {α : Type} : Except PyErr α → Option String
  | .error (.httpException _ d) => d
  | _ => none

/-- Whether a character list begins with a pattern list. -/
def startsWithChars : List Char → List Char → Bool
  | _, [] => true
  | [], _ :: _ => false
  | c :: cs, p :: ps => c == p && startsWithChars cs ps

/-- Splits a character list at the first space, when there is one. -/
def splitAtFirstSpace : List Char → Option (List Char × List Char)
  | [] => none
  | c :: cs =>
    if c == ' ' then some ([], cs)
    else
      match splitAtFirstSpace cs with
      | none => none
      | some (a, b) => some (c :: a, b)

/-- Pythonic str.lower, character by character. -/
def lowerString (s : String) : String := ⟨s.toList.map Char.toLower⟩

/-- Embedding of fastapi.security.utils.get_authorization_scheme_param:
partitions the header value at the first space into (scheme, param);
a value with no space yields (value, ""). -/
def get_authorization_scheme_param (authorization : String) : String × String :=
  match splitAtFirstSpace authorization.toList with
  | none => (authorization, "")
  | some (a, b) => (⟨a⟩, ⟨b⟩)

/-- A missing header is Python None; an empty string is also falsy under
the `if not authorization` test. -/
def pyFalsy : Option String → Bool
  | none => true
  | some s => s == ""

/-- Embedding of `_check_scope_api_key` (api.py lines 68-75): raises
HTTPException(401) when the Authorization header is falsy, or when its scheme
lowercased is not "bearer", or when its parameter differs from the configured
SCOPE_API_KEY. The exception carries no detail. -/
def _check_scope_api_key (secret : String) (authorization : Option String) :
    Except PyErr Unit :=
  bif pyFalsy authorization then
    .error (.httpException 401 none)
  else
    bif (lowerString (get_authorization_scheme_param (authorization.getD "")).1
          != "bearer" ||
        (get_authorization_scheme_param (authorization.getD "")).2 != secret) then
      .error (.httpException 401 none)
    else
      .ok ()

/-- Whether the dependency rejects the request. -/
def isRejected (secret : String) (authorization : Option String) : Bool :=
  match _check_scope_api_key secret authorization with
  | .error _ => true
  | .ok _ => false

/-- A route guarded by Depends( _check_scope_api_key): the dependency runs
before the handler; on rejection the handler body is never entered. -/
def protectedRoute {α : Type} (secret : String) (authorization : Option String)
    (handler : Except PyErr α) : Except PyErr α :=
  match _check_scope_api_key secret authorization with
  | .error e => .error e
  | .ok _ => handler

/-- The registry contents: the ordered-by-insertion sequence of
(scope_id, scope) pairs held by the ScopeStore. -/
abbrev Store := List (String × Scope)

/-- Modelled from the spec: ScopeStore.get_scope (opal_server/scopes/scope_store.py,
not under src/) returns the scope registered under scope_id or fails with
ScopeNotFound (spec section 4.1). -/
def store_get_scope (store : Store) (scope_id : String) : Except PyErr Scope :=
  match store.lookup scope_id with
  | some s => .ok s
  | none => .error .scopeNotFound

/-- The source types for which create_puller has a variant; the spec names the
closed variant set with the single git-polling member (spec sections 4.2, 9). -/
def pullerVariants : List String := ["git-polling"]

/-- Modelled from the spec: ScopeStore.add_scope (not under src/) validates the
scope source type against the known puller variants, failing with
InvalidScopeSourceType carrying the offending type string; on success the scope
is registered (spec section 4.1). -/
def store_add_scope (store : Store) (s : Scope) : Except PyErr Store :=
  if s.policy.source_type ∈ pullerVariants then
    .ok (store ++ [(s.scope_id, s)])
  else
    .error (.invalidScopeSourceType s.policy.source_type)

/-- Embedding of the GET /scopes/scope_id handler body (api.py lines 79-87):
returns the scope, converting ScopeNotFound into HTTPException(404). -/
def get_scope (store : Store) (scope_id : String) : Except PyErr Scope :=
  match store_get_scope store scope_id with
  | .ok s => .ok s
  | .error .scopeNotFound => .error (.httpException 404 none)
  | .error e => .error e

/-- Embedding of the POST /scopes handler body (api.py lines 89-99): adds the
scope; on InvalidScopeSourceType raises HTTPException(400) whose detail carries
the offending source type string. Returns the updated registry. -/
def add_scope (store : Store) (s : Scope) : Except PyErr Store :=
  match store_add_scope store s with
  | .ok st => .ok st
  | .error (.invalidScopeSourceType t) =>
      .error (.httpException 400 (some ("Invalid scope source type: " ++ t)))
  | .error e => .error e

/-- The POST /scopes route decorator sets status_code 201, so a normal handler
return maps to 201 rather than 200. -/
def addScopeStatus (r : Except PyErr Store) : Nat :=
  match r with
  | .ok _ => 201
  | .error (.httpException s _) => s
  | .error _ => 500

/-- Embedding of the GET /scopes/scope_id/data handler body (api.py lines
119-124): fetches the scope and returns its data config. ScopeNotFound is not
caught here and propagates out of the handler. -/
def get_scope_data_config (store : Store) (scope_id : String) :
    Except PyErr DataSourceConfig :=
  match store_get_scope store scope_id with
  | .ok s => .ok s.data
  | .error e => .error e

/-- A git repository model: an association of commit hashes to the file trees
they address (path, content pairs), a parent map for ancestry, and the head
commit targeted by bundle requests. -/
structure GitModel where
  commits : List (String × List (String × String))
  parents : List (String × String)
  head : String
deriving Repr

/-- Whether a hash names a commit known to the repository. -/
def GitModel.knows (g : GitModel) (h : String) : Bool :=
  (g.commits.lookup h).isSome

/-- The tree at a commit: its (path, content) pairs, empty when unknown. -/
def GitModel.filesAt (g : GitModel) (h : String) : List (String × String) :=
  (g.commits.lookup h).getD []

/-- Fuelled walk up the parent chain from b looking for a. -/
def ancestorFuel (g : GitModel) : Nat → String → String → Bool
  | 0, _, _ => false
  | n + 1, a, b =>
    a == b ||
      match g.parents.lookup b with
      | some p => ancestorFuel g n a p
      | none => false

/-- a is an ancestor of b (reflexively) along the parent chain. -/
def GitModel.isAncestorOf (g : GitModel) (a b : String) : Bool :=
  ancestorFuel g (g.parents.length + 1) a b

/-- Whether a path falls in the policy selection: under one of the configured
directories and carrying one of the configured extensions. -/
def selectedPath (dirs exts : List String) (path : String) : Bool :=
  dirs.any (fun d => startsWithChars path.toList (d.toList ++ ['/'])) &&
    exts.any (fun e => startsWithChars path.toList.reverse e.toList.reverse)

/-- One file entry of a policy bundle. -/
structure FileEntry where
  path : String
  content : String
  is_deleted : Bool
deriving DecidableEq, Repr

/-- A policy bundle: content hash, optional base hash (present on diff
bundles), and the file entries. -/
structure PolicyBundle where
  hash : String
  old_hash : Option String
  bundle : List FileEntry
deriving DecidableEq, Repr

/-- Stable bundle hash over the target commit and the selection parameters. -/
def bundleHash (target : String) (dirs exts : List String) : String :=
  target ++ "|" ++ dirs.foldl (fun a d => a ++ "," ++ d) "" ++ "|" ++
    exts.foldl (fun a e => a ++ "," ++ e) ""

/-- The full selection at a commit: every file under the selected directories
with a selected extension, in tree order. -/
def fullSelectionEntries (g : GitModel) (dirs exts : List String) : List FileEntry :=
  ((g.filesAt g.head).filter (fun f => selectedPath dirs exts f.1)).map
    (fun f => ⟨f.1, f.2, false⟩)

/-- The diff entries between the trees at base and target, restricted to the
selection: files added or modified at target, then files deleted since base. -/
def diffEntries (oldFiles newFiles : List (String × String))
    (dirs exts : List String) : List FileEntry :=
  ((newFiles.filter (fun f =>
      selectedPath dirs exts f.1 && oldFiles.lookup f.1 != some f.2)).map
    (fun f => ⟨f.1, f.2, false⟩)) ++
  ((oldFiles.filter (fun f =>
      selectedPath dirs exts f.1 && (newFiles.lookup f.1).isNone)).map
    (fun f => ⟨f.1, "", true⟩))

/-- Modelled from the spec: make_bundle / BundleMaker
(opal_server/policy/bundles/api.py and opal_common/git/bundle_maker.py, not
under src/). Target is the head commit. An absent or unknown base_hash yields a
full bundle of the selection; a known base hash that is an ancestor of the
target yields a diff bundle restricted to the selection; a known base that is
not an ancestor fails rather than mislabel a full bundle (spec section 4.3). -/
def make_bundle (g : GitModel) (dirs exts : List String)
    (base_hash : Option String) : Except PyErr PolicyBundle :=
  match base_hash with
  | none =>
      .ok ⟨bundleHash g.head dirs exts, none, fullSelectionEntries g dirs exts⟩
  | some b =>
      if g.knows b then
        if g.isAncestorOf b g.head then
          .ok ⟨bundleHash g.head dirs exts, some b,
               diffEntries (g.filesAt b) (g.filesAt g.head) dirs exts⟩
        else
          .error .diffBaseUnresolvable
      else
        .ok ⟨bundleHash g.head dirs exts, none, fullSelectionEntries g dirs exts⟩

/-- Embedding of the GET /scopes/scope_id/policy handler body (api.py lines
101-117): fetches the scope (ScopeNotFound is not caught and propagates),
builds a BundleMaker over the scope clone with the scope directories and
extensions, and returns make_bundle on it. The repos argument maps a scope id
to the git state of its on-disk clone. -/
def get_scope_policy (store : Store) (repos : String → GitModel)
    (scope_id : String) (base_hash : Option String) : Except PyErr PolicyBundle :=
  match store_get_scope store scope_id with
  | .error e => .error e
  | .ok scope =>
      make_bundle (repos scope_id) scope.policy.directories
        scope.policy.extensions base_hash

/-- The externally visible operations performed while processing scopes:
puller construction and its three operations, plus a publish of a commit
range on the scope topic. -/
inductive Event where
  | create_puller : String → Event
  | check : String → Event
  | diff : String → Event
  | pull : String → Event
  | publish : String → String → String → Event
deriving DecidableEq, Repr

/-- The behaviour of create_puller and of the puller operations for each
scope during one sweep: each either returns a value or raises (spec sections
4.2 and 7; pullers live in opal_server/scopes/pullers.py, not under src/). -/
structure PullerOracle where
  create_puller : Scope → Except PyErr Unit
  check : Scope → Except PyErr Bool
  diff : Scope → Except PyErr (String × String)
  pull : Scope → Except PyErr Unit

/-- The loop body of periodic_check (api.py lines 131-149) for one scope:
skip scopes with polling disabled; otherwise build the puller, call check,
and on true call diff, then pull, then publish the commit pair returned by
diff. Returns the events performed and the exception, if one was raised. -/
def processScope (o : PullerOracle) (scope_id : String) (s : Scope) :
    List Event × Option PyErr :=
  if s.policy.polling = false then
    ([], none)
  else
    match o.create_puller s with
    | .error e => ([], some e)
    | .ok _ =>
      match o.check s with
      | .error e => ([.create_puller scope_id], some e)
      | .ok false => ([.create_puller scope_id, .check scope_id], none)
      | .ok true =>
        match o.diff s with
        | .error e => ([.create_puller scope_id, .check scope_id], some e)
        | .ok (oldCommit, newCommit) =>
          match o.pull s with
          | .error e =>
              ([.create_puller scope_id, .check scope_id, .diff scope_id], some e)
          | .ok _ =>
              ([.create_puller scope_id, .check scope_id, .diff scope_id,
                .pull scope_id, .publish scope_id oldCommit newCommit], none)

/-- Embedding of the POST /scopes/periodic-check handler body (api.py lines
126-149): iterates all scopes in order. The loop carries no exception
handler, so an exception raised while processing one scope propagates and
aborts the remainder of the sweep. -/
def periodic_check (o : PullerOracle) : Store → List Event × Option PyErr
  | [] => ([], none)
  | (scope_id, s) :: rest =>
    match processScope o scope_id s with
    | (evs, some e) => (evs, some e)
    | (evs, none) =>
      let r := periodic_check o rest
      (evs ++ r.1, r.2)

/-- The concatenation of the per-scope traces of a failure-free sweep. -/
def sweepTrace (o : PullerOracle) (store : Store) : List Event :=
  (store.map (fun p => (processScope o p.1 p.2).1)).flatten

/-- Python runtime values as they appear in the webhook loop: the registry
pairs returned by all_scopes are tuples, a scope is an object. -/
inductive PyObj where
  | tuple : String → Scope → PyObj
  | scopeObj : Scope → PyObj
deriving DecidableEq, Repr

/-- Python attribute lookup of "policy": succeeds on a Scope object, raises
AttributeError on a (scope_id, scope) tuple, which has no such attribute. -/
def getattrPolicy : PyObj → Except PyErr ScopePolicy
  | .scopeObj s => .ok s.policy
  | .tuple _ _ => .error (.attributeError "tuple object has no attribute policy")

/-- Python attribute lookup of "scope_id": succeeds on a Scope object, raises
AttributeError on a tuple. -/
def getattrScopeId : PyObj → Except PyErr String
  | .scopeObj s => .ok s.scope_id
  | .tuple _ _ => .error (.attributeError "tuple object has no attribute scope_id")

/-- The value of all_scopes as seen by the webhook loop: the list of
(scope_id, scope) tuples (spec section 4.1). -/
def all_scopes (store : Store) : List PyObj :=
  store.map (fun p => .tuple p.1 p.2)

/-- The events performed by the webhook handler: a registry pull of a scope,
and a publish of the commit range taken from the push event. -/
inductive WebhookEvent where
  | pull_scope : String → WebhookEvent
  | publish : String → String → String → WebhookEvent
deriving DecidableEq, Repr

/-- The repository block of a GitHub push payload. -/
structure PushRepository where
  clone_url : String
  git_url : String
  ssh_url : String
deriving DecidableEq, Repr

/-- A GitHub push payload: repository URLs plus the before and after commit
identifiers of the pushed range. -/
structure PushWebHook where
  repository : PushRepository
  before : String
  after : String
deriving DecidableEq, Repr

/-- Modelled from the spec: validate_github_signature_or_throw
(opal_server/policy/webhook/deps.py, not under src/) checks a keyed-HMAC
signature over the raw request body against the shared secret and rejects the
request as unauthorized when the header is missing or does not match
(spec sections 4.6 and 6). The hmac argument is the keyed-HMAC primitive. -/
def validate_github_signature_or_throw (hmac : String → String → String)
    (secret rawBody : String) (sigHeader : Option String) : Except PyErr Unit :=
  match sigHeader with
  | none => .error (.httpException 401 none)
  | some sig =>
      if sig == hmac secret rawBody then .ok ()
      else .error (.httpException 401 none)

/-- One iteration of the webhook loop (api.py lines 170-187). The loop
variable is bound to a registry element; the body reads its policy attribute,
matches the configured URL against the three event URL variants, and on a
match pulls the scope via the store and publishes the range between the before
and after identifiers carried by the event. -/
def webhookLoopBody (push : PushWebHook) (urls : List String) (item : PyObj) :
    Except PyErr (List WebhookEvent) :=
  match getattrPolicy item with
  | .error e => .error e
  | .ok policy =>
    if urls.any (fun u => policy.url == u) then
      match getattrScopeId item with
      | .error e => .error e
      | .ok sid => .ok [.pull_scope sid, .publish sid push.before push.after]
    else
      .ok []

/-- The webhook loop over the registry elements, propagating any raised
exception (which aborts the remaining iterations). -/
def webhookLoop (push : PushWebHook) (urls : List String) :
    List PyObj → List WebhookEvent × Option PyErr
  | [] => ([], none)
  | item :: rest =>
    match webhookLoopBody push urls item with
    | .error e => ([], some e)
    | .ok evs =>
      let r := webhookLoop push urls rest
      (evs ++ r.1, r.2)

/-- The acknowledgment returned by the webhook handler on a non-push event. -/
inductive WebhookResponse where
  | okAck : WebhookResponse
deriving DecidableEq, Repr

/-- Embedding of the POST /scopes/webhook/github/push handler (api.py lines
151-187): a non-push event header returns the ok acknowledgment at once;
otherwise the signature is validated against the raw body (throwing on
mismatch), and then the loop over all_scopes runs. Returns the events
performed and the handler outcome. -/
def webhook_github (hmac : String → String → String) (secret : String)
    (x_github_event : Option String) (x_hub_signature_256 : Option String)
    (push : PushWebHook) (rawBody : String) (store : Store) :
    List WebhookEvent × Except PyErr WebhookResponse :=
  if x_github_event != some "push" then
    ([], .ok .okAck)
  else
    match validate_github_signature_or_throw hmac secret rawBody x_hub_signature_256 with
    | .error e => ([], .error e)
    | .ok _ =>
      let urls := [push.repository.clone_url, push.repository.git_url,
                   push.repository.ssh_url]
      match webhookLoop push urls (all_scopes store) with
      | (evs, some e) => (evs, .error e)
      | (evs, none) => (evs, .ok .okAck)

/-
  Fixtures: a small concrete registry, git state, oracle and push payload used
  by the concrete instantiations below.
-/

/-- A registered scope with polling enabled, selecting .rego files under the
policies directory. -/
def scopeAlpha : Scope :=
  ⟨"alpha", ⟨"https://example.com/r.git", "git-polling", true, ["policies"],
    [".rego"], "manifest"⟩, "dataAlpha"⟩

/-- A one-scope registry. -/
def storeEx : Store := [("alpha", scopeAlpha)]

/-- A two-commit repository: c2 is the head, its parent is c1; the selected
file policies/x.rego changes between them, policies/gone.rego is deleted, and
readme.md falls outside the selection. -/
def gitEx : GitModel :=
  ⟨[("c1", [("policies/x.rego", "old"), ("policies/gone.rego", "g"),
            ("readme.md", "r")]),
    ("c2", [("policies/x.rego", "new"), ("readme.md", "r2")])],
   [("c2", "c1")], "c2"⟩

/-- Every scope clone resolves to the same example repository. -/
def reposEx : String → GitModel := fun _ => gitEx

/-
  Claim C7 and the authentication dependency.
-/

/-- The rejection condition in the words of the claim: the Authorization
header is missing, or its scheme lowercased is not bearer, or its token
differs from the configured secret. -/
def rejectConditionSpec (secret : String) (authorization : Option String) : Bool :=
  authorization.isNone ||
    lowerString (get_authorization_scheme_param (authorization.getD "")).1
      != "bearer" ||
    (get_authorization_scheme_param (authorization.getD "")).2 != secret

/-- The authentication dependency is the branch on the spec-worded rejection
condition: it raises the detail-free 401 exactly when that condition holds. -/
lemma check_scope_api_key_eq_cond (secret : String) (auth : Option String) :
    _check_scope_api_key secret auth =
      cond (rejectConditionSpec secret auth)
        (Except.error (PyErr.httpException 401 none)) (Except.ok ()) := by
  cases auth with
  | none => rfl
  | some s =>
    cases hs : s == "" with
    | true =>
      have hs2 : s = "" := eq_of_beq hs
      subst hs2
      rfl
    | false =>
      have hp : pyFalsy (some s) = false := hs
      unfold _check_scope_api_key
      rw [hp]
      rfl

/-- Claim C7: a bearer-protected endpoint rejects with 401 exactly when the
Authorization header is missing, its scheme is not bearer case-insensitively,
or its token differs from the configured secret; the raised exception is
always HTTPException(401) with no detail, so nothing reveals which check
failed; and on rejection the guarded handler body is never entered, the
response being the same 401 whatever the handler would do. -/
theorem scope_api_key_auth_C7 (secret : String) (authorization : Option String)
    (handler : Except PyErr Nat) :
    isRejected secret authorization = rejectConditionSpec secret authorization ∧
    (_check_scope_api_key secret authorization =
        .error (.httpException 401 none) ∨
      _check_scope_api_key secret authorization = .ok ()) ∧
    protectedRoute secret authorization handler =
      (bif isRejected secret authorization then
        .error (.httpException 401 none)
      else handler) := by
  refine ⟨?_, ?_, ?_⟩
  · unfold isRejected
    rw [check_scope_api_key_eq_cond]
    cases rejectConditionSpec secret authorization <;> rfl
  · rw [check_scope_api_key_eq_cond]
    cases rejectConditionSpec secret authorization
    · exact Or.inr rfl
    · exact Or.inl rfl
  · unfold protectedRoute isRejected
    rw [check_scope_api_key_eq_cond]
    cases rejectConditionSpec secret authorization <;> rfl

/-
  Claim C5: surfacing of ScopeNotFound.
-/

/-- Claim C5 counterexample: at the concrete one-scope registry, a request for
an unknown scope id on the policy endpoint does not surface as a 404 response,
contrary to the claim that all three read endpoints do. -/
theorem scope_not_found_status_C5_cex :
    httpStatus (get_scope_policy storeEx reposEx "missing" none) ≠ 404 := by
  decide

/-- Claim C5 amended: an unknown scope id yields 404 on GET scopes/scope_id,
whose handler converts ScopeNotFound, but on the policy and data endpoints the
ScopeNotFound exception is not caught and escapes the handler as a 500 server
error rather than a 404. -/
theorem scope_not_found_status_C5 (store : Store) (repos : String → GitModel)
    (scope_id : String) (base_hash : Option String)
    (h : store.lookup scope_id = none) :
    httpStatus (get_scope store scope_id) = 404 ∧
    httpStatus (get_scope_policy store repos scope_id base_hash) = 500 ∧
    httpStatus (get_scope_data_config store scope_id) = 500 := by
  have hs : store_get_scope store scope_id = .error .scopeNotFound := by
    unfold store_get_scope
    rw [h]
  refine ⟨?_, ?_, ?_⟩
  · unfold get_scope
    rw [hs]
    rfl
  · unfold get_scope_policy
    rw [hs]
    rfl
  · unfold get_scope_data_config
    rw [hs]
    rfl

/-- Concrete instantiation of the amended C5 statement at the example
registry and an absent scope id. -/
theorem scope_not_found_status_C5_witness :
    storeEx.lookup "missing" = none ∧
    (httpStatus (get_scope storeEx "missing") = 404 ∧
      httpStatus (get_scope_policy storeEx reposEx "missing" none) = 500 ∧
      httpStatus (get_scope_data_config storeEx "missing") = 500) :=
  ⟨by decide, scope_not_found_status_C5 storeEx reposEx "missing" none (by decide)⟩

/-
  Claim C6: add_scope response statuses.
-/

/-- Claim C6: an authorized POST scopes request whose scope source type has a
matching puller variant registers the scope and responds 201; one whose store
raises InvalidScopeSourceType responds 400 with a detail carrying the
offending source type string. -/
theorem add_scope_status_C6 (store : Store) (s t : Scope)
    (hs : s.policy.source_type ∈ pullerVariants)
    (ht : t.policy.source_type ∉ pullerVariants) :
    addScopeStatus (add_scope store s) = 201 ∧
    add_scope store s = .ok (store ++ [(s.scope_id, s)]) ∧
    store_add_scope store t =
      .error (.invalidScopeSourceType t.policy.source_type) ∧
    addScopeStatus (add_scope store t) = 400 ∧
    httpDetail (add_scope store t) =
      some ("Invalid scope source type: " ++ t.policy.source_type) := by
  have hadd : store_add_scope store s = .ok (store ++ [(s.scope_id, s)]) := by
    unfold store_add_scope
    rw [if_pos hs]
  have hbad : store_add_scope store t =
      .error (.invalidScopeSourceType t.policy.source_type) := by
    unfold store_add_scope
    rw [if_neg ht]
  refine ⟨?_, ?_, hbad, ?_, ?_⟩
  · unfold addScopeStatus add_scope
    rw [hadd]
  · unfold add_scope
    rw [hadd]
  · unfold addScopeStatus add_scope
    rw [hbad]
  · unfold httpDetail add_scope
    rw [hbad]

/-- A scope whose source type has no matching puller variant. -/
def scopeSvn : Scope :=
  ⟨"svn1", ⟨"https://example.com/s", "svn", true, [], [], "m"⟩, "d"⟩

/-- Concrete instantiation of C6 at the example registry with a git-polling
scope and an svn scope. -/
theorem add_scope_status_C6_witness :
    scopeAlpha.policy.source_type ∈ pullerVariants ∧
    scopeSvn.policy.source_type ∉ pullerVariants ∧
    (addScopeStatus (add_scope [] scopeAlpha) = 201 ∧
      add_scope [] scopeAlpha = .ok ([] ++ [(scopeAlpha.scope_id, scopeAlpha)]) ∧
      store_add_scope [] scopeSvn =
        .error (.invalidScopeSourceType scopeSvn.policy.source_type) ∧
      addScopeStatus (add_scope [] scopeSvn) = 400 ∧
      httpDetail (add_scope [] scopeSvn) =
        some ("Invalid scope source type: " ++ scopeSvn.policy.source_type)) :=
  ⟨by decide, by decide,
    add_scope_status_C6 [] scopeAlpha scopeSvn (by decide) (by decide)⟩

/-
  Claim C10: the policy and data endpoints carry no bearer-token check.
-/

/-- The GET scopes/scope_id/policy route as deployed: its route declaration
carries no authentication dependency, so the Authorization header of the
request never reaches the handler. -/
def get_scope_policy_endpoint (store : Store) (repos : String → GitModel)
    (_authorization : Option String) (scope_id : String)
    (base_hash : Option String) : Except PyErr PolicyBundle :=
  get_scope_policy store repos scope_id base_hash

/-- The GET scopes/scope_id/data route as deployed: no authentication
dependency. -/
def get_scope_data_endpoint (store : Store) (_authorization : Option String)
    (scope_id : String) : Except PyErr DataSourceConfig :=
  get_scope_data_config store scope_id

/-- Claim C10: the policy and data endpoints behave identically under any two
Authorization headers, and their response status is always 200 or 500, never
the 401 rejection of the bearer check, so any caller knowing a scope id can
read that scope policy bundle and data configuration. -/
theorem unauthenticated_read_C10 (store : Store) (repos : String → GitModel)
    (a1 a2 : Option String) (scope_id : String) (base_hash : Option String) :
    get_scope_policy_endpoint store repos a1 scope_id base_hash =
      get_scope_policy_endpoint store repos a2 scope_id base_hash ∧
    get_scope_data_endpoint store a1 scope_id =
      get_scope_data_endpoint store a2 scope_id ∧
    (httpStatus (get_scope_policy_endpoint store repos a1 scope_id base_hash) = 200 ∨
      httpStatus (get_scope_policy_endpoint store repos a1 scope_id base_hash) = 500) ∧
    (httpStatus (get_scope_data_endpoint store a1 scope_id) = 200 ∨
      httpStatus (get_scope_data_endpoint store a1 scope_id) = 500) := by
  refine ⟨rfl, rfl, ?_, ?_⟩
  · unfold get_scope_policy_endpoint get_scope_policy
    cases hs : store_get_scope store scope_id with
    | error e =>
      have : e = .scopeNotFound := by
        unfold store_get_scope at hs
        cases hl : store.lookup scope_id with
        | none => rw [hl] at hs; exact (Except.error.injEq _ _).mp hs.symm
        | some v => rw [hl] at hs; cases hs
      subst this
      exact Or.inr rfl
    | ok scope =>
      cases base_hash with
      | none => exact Or.inl rfl
      | some b =>
        dsimp only [make_bundle]
        by_cases hk : (repos scope_id).knows b = true
        · rw [if_pos hk]
          by_cases ha : (repos scope_id).isAncestorOf b (repos scope_id).head = true
          · rw [if_pos ha]
            exact Or.inl rfl
          · rw [if_neg ha]
            exact Or.inr rfl
        · rw [if_neg hk]
          exact Or.inl rfl
  · unfold get_scope_data_endpoint get_scope_data_config
    cases hs : store_get_scope store scope_id with
    | error e =>
      have : e = .scopeNotFound := by
        unfold store_get_scope at hs
        cases hl : store.lookup scope_id with
        | none => rw [hl] at hs; exact (Except.error.injEq _ _).mp hs.symm
        | some v => rw [hl] at hs; cases hs
      subst this
      exact Or.inr rfl
    | ok scope => exact Or.inl rfl

/-
  Claim C4: diff versus full policy bundles.
-/

/-- Whether a bundle entry records a file that changed between the base and
target trees, within the selection: a deleted entry names a selected path
present at base and absent at target; a content entry names a selected file of
the target tree whose path did not carry that content at base. -/
def changedEntryB (oldFiles newFiles : List (String × String))
    (dirs exts : List String) (e : FileEntry) : Bool :=
  selectedPath dirs exts e.path &&
    (bif e.is_deleted then
      oldFiles.any (fun f => f.1 == e.path) && (newFiles.lookup e.path).isNone
    else
      newFiles.any (fun f => f.1 == e.path && f.2 == e.content) &&
        oldFiles.lookup e.path != some e.content)

/-- Every entry of a diff bundle records a selected file changed between the
two trees. -/
lemma diffEntries_only_changed (oldFiles newFiles : List (String × String))
    (dirs exts : List String) :
    (diffEntries oldFiles newFiles dirs exts).all
      (changedEntryB oldFiles newFiles dirs exts) = true := by
  rw [List.all_eq_true]
  intro e he
  unfold diffEntries at he
  rw [List.mem_append] at he
  rcases he with he | he
  · rw [List.mem_map] at he
    obtain ⟨f, hf, rfl⟩ := he
    rw [List.mem_filter] at hf
    obtain ⟨hmem, hsel⟩ := hf
    rw [Bool.and_eq_true] at hsel
    simp only [changedEntryB, cond_false, Bool.and_eq_true]
    exact ⟨hsel.1, List.any_eq_true.mpr ⟨f, hmem, by simp⟩, hsel.2⟩
  · rw [List.mem_map] at he
    obtain ⟨f, hf, rfl⟩ := he
    rw [List.mem_filter] at hf
    obtain ⟨hmem, hsel⟩ := hf
    rw [Bool.and_eq_true] at hsel
    simp only [changedEntryB, cond_true, Bool.and_eq_true]
    exact ⟨hsel.1, List.any_eq_true.mpr ⟨f, hmem, by simp⟩, hsel.2⟩

/-- The entries of a bundle response, empty on an error. -/
def bundleEntries (r : Except PyErr PolicyBundle) : List FileEntry :=
  match r with
  | .ok pb => pb.bundle
  | .error _ => []

/-- The old_hash field of a bundle response, none on an error. -/
def bundleOldHash (r : Except PyErr PolicyBundle) : Option (Option String) :=
  match r with
  | .ok pb => some pb.old_hash
  | .error _ => none

/-- Claim C4: when the supplied base hash names a commit known to the scope
repository that is an ancestor of the target, the policy endpoint returns a
diff bundle, marked with that base hash, whose entries all record files
changed between the two commits within the scope directories and extensions;
when base hash is absent, or names an unknown commit, the endpoint returns a
full snapshot of the selection at the target commit. -/
theorem get_scope_policy_bundle_C4 (store : Store) (repos : String → GitModel)
    (scope_id : String) (scope : Scope) (b u : String)
    (hsc : store_get_scope store scope_id = .ok scope)
    (hb : (repos scope_id).knows b = true)
    (hanc : (repos scope_id).isAncestorOf b (repos scope_id).head = true)
    (hu : (repos scope_id).knows u = false) :
    get_scope_policy store repos scope_id (some b) =
      .ok ⟨bundleHash (repos scope_id).head scope.policy.directories
             scope.policy.extensions,
           some b,
           diffEntries ((repos scope_id).filesAt b)
             ((repos scope_id).filesAt (repos scope_id).head)
             scope.policy.directories scope.policy.extensions⟩ ∧
    bundleOldHash (get_scope_policy store repos scope_id (some b)) =
      some (some b) ∧
    (bundleEntries (get_scope_policy store repos scope_id (some b))).all
      (changedEntryB ((repos scope_id).filesAt b)
        ((repos scope_id).filesAt (repos scope_id).head)
        scope.policy.directories scope.policy.extensions) = true ∧
    get_scope_policy store repos scope_id none =
      .ok ⟨bundleHash (repos scope_id).head scope.policy.directories
             scope.policy.extensions,
           none,
           fullSelectionEntries (repos scope_id) scope.policy.directories
             scope.policy.extensions⟩ ∧
    get_scope_policy store repos scope_id (some u) =
      .ok ⟨bundleHash (repos scope_id).head scope.policy.directories
             scope.policy.extensions,
           none,
           fullSelectionEntries (repos scope_id) scope.policy.directories
             scope.policy.extensions⟩ := by
  have hdiff : get_scope_policy store repos scope_id (some b) =
      .ok ⟨bundleHash (repos scope_id).head scope.policy.directories
             scope.policy.extensions,
           some b,
           diffEntries ((repos scope_id).filesAt b)
             ((repos scope_id).filesAt (repos scope_id).head)
             scope.policy.directories scope.policy.extensions⟩ := by
    unfold get_scope_policy
    rw [hsc]
    dsimp only [make_bundle]
    rw [if_pos hb, if_pos hanc]
  have hfull : get_scope_policy store repos scope_id none =
      .ok ⟨bundleHash (repos scope_id).head scope.policy.directories
             scope.policy.extensions,
           none,
           fullSelectionEntries (repos scope_id) scope.policy.directories
             scope.policy.extensions⟩ := by
    unfold get_scope_policy
    rw [hsc]
    rfl
  have hu2 : ¬((repos scope_id).knows u = true) := by
    rw [hu]
    exact Bool.false_ne_true
  have hunk : get_scope_policy store repos scope_id (some u) =
      .ok ⟨bundleHash (repos scope_id).head scope.policy.directories
             scope.policy.extensions,
           none,
           fullSelectionEntries (repos scope_id) scope.policy.directories
             scope.policy.extensions⟩ := by
    unfold get_scope_policy
    rw [hsc]
    dsimp only [make_bundle]
    rw [if_neg hu2]
  refine ⟨hdiff, ?_, ?_, hfull, hunk⟩
  · rw [hdiff]
    rfl
  · rw [hdiff]
    exact diffEntries_only_changed _ _ _ _

/-- Concrete instantiation of C4 at the example registry and two-commit
repository: base c1 is a known ancestor of the head c2, base zzz is unknown. -/
theorem get_scope_policy_bundle_C4_witness :
    (store_get_scope storeEx "alpha" = .ok scopeAlpha ∧
      gitEx.knows "c1" = true ∧
      gitEx.isAncestorOf "c1" gitEx.head = true ∧
      gitEx.knows "zzz" = false) ∧
    (get_scope_policy storeEx reposEx "alpha" (some "c1") =
      .ok ⟨bundleHash (reposEx "alpha").head scopeAlpha.policy.directories
             scopeAlpha.policy.extensions,
           some "c1",
           diffEntries ((reposEx "alpha").filesAt "c1")
             ((reposEx "alpha").filesAt (reposEx "alpha").head)
             scopeAlpha.policy.directories scopeAlpha.policy.extensions⟩ ∧
    bundleOldHash (get_scope_policy storeEx reposEx "alpha" (some "c1")) =
      some (some "c1") ∧
    (bundleEntries (get_scope_policy storeEx reposEx "alpha" (some "c1"))).all
      (changedEntryB ((reposEx "alpha").filesAt "c1")
        ((reposEx "alpha").filesAt (reposEx "alpha").head)
        scopeAlpha.policy.directories scopeAlpha.policy.extensions) = true ∧
    get_scope_policy storeEx reposEx "alpha" none =
      .ok ⟨bundleHash (reposEx "alpha").head scopeAlpha.policy.directories
             scopeAlpha.policy.extensions,
           none,
           fullSelectionEntries (reposEx "alpha") scopeAlpha.policy.directories
             scopeAlpha.policy.extensions⟩ ∧
    get_scope_policy storeEx reposEx "alpha" (some "zzz") =
      .ok ⟨bundleHash (reposEx "alpha").head scopeAlpha.policy.directories
             scopeAlpha.policy.extensions,
           none,
           fullSelectionEntries (reposEx "alpha") scopeAlpha.policy.directories
             scopeAlpha.policy.extensions⟩) :=
  ⟨⟨by decide, by decide, by decide, by decide⟩,
    get_scope_policy_bundle_C4 storeEx reposEx "alpha" scopeAlpha "c1" "zzz"
      (by decide) (by decide) (by decide) (by decide)⟩

/-
  Claims C2 and C3: the periodic sweep.
-/

/-- A failure-free sweep performs exactly the concatenation of the per-scope
traces, in registry order. -/
lemma periodic_check_ok_trace (o : PullerOracle) :
    ∀ store : Store, (periodic_check o store).2 = none →
      (periodic_check o store).1 = sweepTrace o store := by
  intro store
  induction store with
  | nil => intro _; rfl
  | cons p rest ih =>
    intro hok
    obtain ⟨scope_id, s⟩ := p
    unfold periodic_check at hok ⊢
    cases hp : processScope o scope_id s with
    | mk evs err =>
      cases err with
      | some e =>
        rw [hp] at hok
        have hcontra : (some e : Option PyErr) = none := hok
        cases hcontra
      | none =>
        rw [hp] at hok
        have hok2 : (periodic_check o rest).2 = none := hok
        show evs ++ (periodic_check o rest).1 =
          (processScope o scope_id s).1 ++ sweepTrace o rest
        rw [hp, ih hok2]

/-- Claim C3: in a sweep that completes without failure the events are the
concatenation of the per-scope traces, and for each scope of the registry the
trace is empty when polling is disabled; when polling is enabled and check
returns true it is exactly puller creation, check, diff, pull, then a publish
carrying the commit pair that diff returned, in that order; when check returns
false nothing beyond puller creation and the check itself is performed. -/
theorem periodic_check_per_scope_C3 (o : PullerOracle) (store : Store)
    (sid0 sid1 sid2 : String) (s0 s1 s2 : Scope) (oldC newC : String)
    (hok : (periodic_check o store).2 = none)
    (h0 : s0.policy.polling = false)
    (h1p : s1.policy.polling = true)
    (h1c : o.create_puller s1 = .ok ())
    (h1k : o.check s1 = .ok true)
    (h1d : o.diff s1 = .ok (oldC, newC))
    (h1u : o.pull s1 = .ok ())
    (h2p : s2.policy.polling = true)
    (h2c : o.create_puller s2 = .ok ())
    (h2k : o.check s2 = .ok false) :
    (periodic_check o store).1 = sweepTrace o store ∧
    processScope o sid0 s0 = ([], none) ∧
    processScope o sid1 s1 =
      ([.create_puller sid1, .check sid1, .diff sid1, .pull sid1,
        .publish sid1 oldC newC], none) ∧
    processScope o sid2 s2 = ([.create_puller sid2, .check sid2], none) := by
  refine ⟨periodic_check_ok_trace o store hok, ?_, ?_, ?_⟩
  · unfold processScope
    rw [if_pos h0]
  · unfold processScope
    rw [if_neg (by simp [h1p]), h1c, h1k, h1d, h1u]
  · unfold processScope
    rw [if_neg (by simp [h2p]), h2c, h2k]

/-- A polling-disabled scope. -/
def scopeNoPoll : Scope :=
  ⟨"quiet", ⟨"https://example.com/q.git", "git-polling", false, ["policies"],
    [".rego"], "m"⟩, "d"⟩

/-- A polling-enabled scope whose upstream has nothing new. -/
def scopeIdle : Scope :=
  ⟨"idle", ⟨"https://example.com/i.git", "git-polling", true, ["policies"],
    [".rego"], "m"⟩, "d"⟩

/-- An oracle under which every operation succeeds: check reports new commits
only for the alpha scope, whose diff is the c1 to c2 range. -/
def oracleOk : PullerOracle :=
  ⟨fun _ => .ok (),
   fun s => .ok (s.scope_id == "alpha"),
   fun _ => .ok ("c1", "c2"),
   fun _ => .ok ()⟩

/-- Concrete instantiation of C3: a three-scope failure-free sweep. -/
theorem periodic_check_per_scope_C3_witness :
    ((periodic_check oracleOk
        [("quiet", scopeNoPoll), ("alpha", scopeAlpha), ("idle", scopeIdle)]).2 =
          none ∧
      scopeNoPoll.policy.polling = false ∧
      scopeAlpha.policy.polling = true ∧
      oracleOk.check scopeAlpha = .ok true ∧
      oracleOk.diff scopeAlpha = .ok ("c1", "c2") ∧
      scopeIdle.policy.polling = true ∧
      oracleOk.check scopeIdle = .ok false) ∧
    ((periodic_check oracleOk
        [("quiet", scopeNoPoll), ("alpha", scopeAlpha), ("idle", scopeIdle)]).1 =
      sweepTrace oracleOk
        [("quiet", scopeNoPoll), ("alpha", scopeAlpha), ("idle", scopeIdle)] ∧
    processScope oracleOk "quiet" scopeNoPoll = ([], none) ∧
    processScope oracleOk "alpha" scopeAlpha =
      ([.create_puller "alpha", .check "alpha", .diff "alpha", .pull "alpha",
        .publish "alpha" "c1" "c2"], none) ∧
    processScope oracleOk "idle" scopeIdle =
      ([.create_puller "idle", .check "idle"], none)) :=
  ⟨⟨by decide, by decide, by decide, by decide, by decide, by decide, by decide⟩,
    periodic_check_per_scope_C3 oracleOk
      [("quiet", scopeNoPoll), ("alpha", scopeAlpha), ("idle", scopeIdle)]
      "quiet" "alpha" "idle" scopeNoPoll scopeAlpha scopeIdle "c1" "c2"
      (by decide) (by decide) (by decide) (by decide) (by decide) (by decide)
      (by decide) (by decide) (by decide) (by decide)⟩

/-- An oracle like oracleOk except that building a puller for the bad scope
raises InvalidScopeSourceType. -/
def oracleBad : PullerOracle :=
  ⟨fun s => bif s.scope_id == "bad" then .error (.invalidScopeSourceType "svn")
            else .ok (),
   fun _ => .ok true,
   fun _ => .ok ("c1", "c2"),
   fun _ => .ok ()⟩

/-- A polling-enabled scope whose source type no puller variant matches. -/
def scopeBad : Scope :=
  ⟨"bad", ⟨"https://example.com/b.git", "svn", true, ["policies"], [".rego"],
    "m"⟩, "d"⟩

/-- Claim C2 exhibits a code bug: with the bad scope ordered before the good
one, the InvalidScopeSourceType raised while processing the bad scope
propagates out of the unguarded loop and the sweep ends with no event at all,
so the good scope is never processed; the same sweep over the good scope
alone processes it fully. -/
theorem periodic_check_failure_aborts_C2 :
    periodic_check oracleBad [("bad", scopeBad), ("good", scopeAlpha)] =
      ([], some (.invalidScopeSourceType "svn")) ∧
    periodic_check oracleBad [("good", scopeAlpha)] =
      ([.create_puller "good", .check "good", .diff "good", .pull "good",
        .publish "good" "c1" "c2"], none) := by
  constructor
  · decide
  · decide

/-
  Claims C1, C8, C9: the GitHub webhook endpoint.
-/

/-- Claim C1: a request whose event header is push but whose signature header
does not validate against the raw body is rejected by the validation throw
before the scope loop runs: no scope is pulled, nothing is published, and the
handler outcome is the unauthorized error. -/
theorem webhook_invalid_signature_C1 (hmac : String → String → String)
    (secret rawBody : String) (sig : Option String) (push : PushWebHook)
    (store : Store)
    (hsig : sig ≠ some (hmac secret rawBody)) :
    webhook_github hmac secret (some "push") sig push rawBody store =
      ([], .error (.httpException 401 none)) := by
  have hev : ((some "push" : Option String) != some "push") = false := by decide
  cases sig with
  | none =>
    unfold webhook_github
    rw [hev]
    rfl
  | some sg =>
    have hne : sg ≠ hmac secret rawBody := fun h => hsig (by rw [h])
    have hbeq : (sg == hmac secret rawBody) = false := by
      rw [beq_eq_false_iff_ne]
      exact hne
    have hval : validate_github_signature_or_throw hmac secret rawBody (some sg) =
        .error (.httpException 401 none) := by
      unfold validate_github_signature_or_throw
      show (if (sg == hmac secret rawBody) = true then Except.ok ()
            else Except.error (PyErr.httpException 401 none)) = _
      rw [hbeq]
      rfl
    unfold webhook_github
    rw [hev, hval]
    rfl

/-- The keyed-HMAC primitive instantiated concretely for the witnesses. -/
def hmacEx : String → String → String := fun key body => key ++ "." ++ body

/-- Concrete instantiation of C1: a tampered signature on a push event at the
one-scope registry changes nothing and yields the unauthorized error. -/
theorem webhook_invalid_signature_C1_witness :
    (some "bad" : Option String) ≠ some (hmacEx "sec" "body") ∧
    webhook_github hmacEx "sec" (some "push") (some "bad")
        ⟨⟨"https://example.com/r.git", "g", "s"⟩, "aa", "bb"⟩ "body" storeEx =
      ([], .error (.httpException 401 none)) :=
  ⟨by decide,
    webhook_invalid_signature_C1 hmacEx "sec" "body" (some "bad")
      ⟨⟨"https://example.com/r.git", "g", "s"⟩, "aa", "bb"⟩ storeEx (by decide)⟩

/-- Claim C9: a request whose event header is anything but push is
acknowledged with ok and performs no pull and no publish. -/
theorem webhook_non_push_C9 (hmac : String → String → String)
    (secret rawBody : String) (x_github_event sig : Option String)
    (push : PushWebHook) (store : Store)
    (hev : x_github_event ≠ some "push") :
    webhook_github hmac secret x_github_event sig push rawBody store =
      ([], .ok .okAck) := by
  unfold webhook_github
  have hne : (x_github_event != some "push") = true := by
    rw [bne_iff_ne]
    exact hev
  rw [hne]
  rfl

/-- Concrete instantiation of C9: a ping event is a no-op acknowledgment. -/
theorem webhook_non_push_C9_witness :
    (some "ping" : Option String) ≠ some "push" ∧
    webhook_github hmacEx "sec" (some "ping") none
        ⟨⟨"https://example.com/r.git", "g", "s"⟩, "aa", "bb"⟩ "body" storeEx =
      ([], .ok .okAck) :=
  ⟨by decide,
    webhook_non_push_C9 hmacEx "sec" "body" (some "ping") none
      ⟨⟨"https://example.com/r.git", "g", "s"⟩, "aa", "bb"⟩ storeEx (by decide)⟩

/-- The push payload of the C8 instantiation: its clone URL equals the
configured source URL of the registered alpha scope. -/
def pushEx : PushWebHook :=
  ⟨⟨"https://example.com/r.git", "git://example.com/r.git",
    "ssh://example.com/r.git"⟩, "aaaa", "bbbb"⟩

/-- Claim C8 exhibits a code bug: on a correctly signed push event whose
repository clone URL equals the configured URL of the registered alpha scope,
the handler performs no pull and no publish; the loop iterates the
(scope_id, scope) tuples of all_scopes and reads the policy attribute on the
tuple itself, which raises AttributeError on the first element, so even the
matching scope is never pulled. -/
theorem webhook_matching_scope_C8_bug :
    scopeAlpha.policy.url = pushEx.repository.clone_url ∧
    webhook_github hmacEx "sec" (some "push") (some (hmacEx "sec" "body"))
        pushEx "body" storeEx =
      ([], .error (.attributeError "tuple object has no attribute policy")) := by
  constructor
  · decide
  · decide

end Opal
